import Mathlib

/-!
Shallow embedding of the two source files of the libRmath.js repository
that the claims concern: `src/lib/signrank/signrank.ts` (Wilcoxon
signed-rank engine and the AS 243 noncentral-t CDF `pnt`) and
`src/lib/binomial/pbinom.ts`.

Modelling conventions:

* JavaScript runtime values are modelled by `JsVal`: finite numbers as
  exact rationals, plus `nan`, the two infinities, and `undef` (the
  `undefined` value that reading a hole of `new Array(n)` or an
  out-of-range index yields).  Arithmetic (`jsAdd`, `jsMul`, `jsSub`) and
  comparisons (`jsGeQ`, `jsGtQ`) follow the JavaScript coercion rules on
  these values: `undefined` coerces to NaN, NaN is absorbing, any
  comparison with NaN is false.
* The module-level array `w` is a `List JsVal`; `jsIndex` / `jsSet`
  model property access with a rational index (in-range integer indices
  hit the list, everything else reads `undefined` / writes nowhere, which
  is faithful for every index the modelled paths produce).
* External collaborators of the two files (`pbeta`, `pnorm`, `pt`,
  `lgammafn`, `exp`, `log`, `expm1`, `pow`, `sqrt`, and the
  log-domain/tail helpers that live in modules not present under `src/`)
  are abstract fields of a `Collab` structure; theorems that depend on a
  collaborator contract take it as a hypothesis.
* Helpers from the repository's `_general` / `common` modules that are
  not part of the given sources are reconstructed from the spec and
  marked `Modelled from the spec:` in their doc comments.
-/

inductive JsVal where
  | undef : JsVal
  | nan : JsVal
  | posInf : JsVal
  | negInf : JsVal
  | num : ℚ → JsVal
deriving DecidableEq, Repr

/-- JavaScript addition on modelled values: `undefined` coerces to NaN,
NaN is absorbing, infinities of opposite sign give NaN. -/
def jsAdd : JsVal → JsVal → JsVal
  | JsVal.num a, JsVal.num b => JsVal.num (a + b)
  | JsVal.undef, _ => JsVal.nan
  | _, JsVal.undef => JsVal.nan
  | JsVal.nan, _ => JsVal.nan
  | _, JsVal.nan => JsVal.nan
  | JsVal.posInf, JsVal.negInf => JsVal.nan
  | JsVal.negInf, JsVal.posInf => JsVal.nan
  | JsVal.posInf, _ => JsVal.posInf
  | _, JsVal.posInf => JsVal.posInf
  | JsVal.negInf, _ => JsVal.negInf
  | _, JsVal.negInf => JsVal.negInf

/-- JavaScript multiplication on modelled values: `undefined` coerces to
NaN, NaN is absorbing, infinity times zero is NaN. -/
def jsMul : JsVal → JsVal → JsVal
  | JsVal.num a, JsVal.num b => JsVal.num (a * b)
  | JsVal.undef, _ => JsVal.nan
  | _, JsVal.undef => JsVal.nan
  | JsVal.nan, _ => JsVal.nan
  | _, JsVal.nan => JsVal.nan
  | JsVal.posInf, JsVal.posInf => JsVal.posInf
  | JsVal.posInf, JsVal.negInf => JsVal.negInf
  | JsVal.negInf, JsVal.posInf => JsVal.negInf
  | JsVal.negInf, JsVal.negInf => JsVal.posInf
  | JsVal.posInf, JsVal.num b =>
      if 0 < b then JsVal.posInf else if b < 0 then JsVal.negInf else JsVal.nan
  | JsVal.num a, JsVal.posInf =>
      if 0 < a then JsVal.posInf else if a < 0 then JsVal.negInf else JsVal.nan
  | JsVal.negInf, JsVal.num b =>
      if 0 < b then JsVal.negInf else if b < 0 then JsVal.posInf else JsVal.nan
  | JsVal.num a, JsVal.negInf =>
      if 0 < a then JsVal.negInf else if a < 0 then JsVal.posInf else JsVal.nan

/-- JavaScript subtraction on modelled values. -/
def jsSub : JsVal → JsVal → JsVal
  | JsVal.num a, JsVal.num b => JsVal.num (a - b)
  | JsVal.undef, _ => JsVal.nan
  | _, JsVal.undef => JsVal.nan
  | JsVal.nan, _ => JsVal.nan
  | _, JsVal.nan => JsVal.nan
  | JsVal.posInf, JsVal.posInf => JsVal.nan
  | JsVal.negInf, JsVal.negInf => JsVal.nan
  | JsVal.posInf, _ => JsVal.posInf
  | _, JsVal.posInf => JsVal.negInf
  | JsVal.negInf, _ => JsVal.negInf
  | _, JsVal.negInf => JsVal.posInf

/-- JavaScript `v >= t` against a finite number `t`: false whenever `v`
is NaN (or `undefined`, which coerces to NaN). -/
def jsGeQ (v : JsVal) (t : ℚ) : Bool :=
  match v with
  | JsVal.num a => decide (t ≤ a)
  | JsVal.posInf => true
  | _ => false

/-- JavaScript `v > t` against a finite number `t`: false whenever `v`
is NaN (or `undefined`). -/
def jsGtQ (v : JsVal) (t : ℚ) : Bool :=
  match v with
  | JsVal.num a => decide (t < a)
  | JsVal.posInf => true
  | _ => false

/-- The module-level coefficient array `w` of the signed-rank engine. -/
abbrev Table := List JsVal

/-- Reading `w[i]` with a rational index: an in-range integer index reads
the stored element (holes of `new Array(n)` are stored as `undef`);
a negative, fractional or out-of-range index reads `undefined`. -/
def jsIndex (w : Table) (i : ℚ) : JsVal :=
  if i.den = 1 ∧ 0 ≤ i.num then w.getD i.num.toNat JsVal.undef else JsVal.undef

/-- Writing `w[i] = v` with a rational index: an in-range integer index
updates the list; anything else leaves the modelled array part unchanged
(the paths the claims exercise only write in-range integer indices). -/
def jsSet (w : Table) (i : ℚ) (v : JsVal) : Table :=
  if i.den = 1 ∧ 0 ≤ i.num ∧ i.num.toNat < w.length then w.set i.num.toNat v else w

/-- The constant `M_LN2 = 0.693147180559945309417` as written in the
source (signrank.ts line defining it for `pnt`). -/
def M_LN2 : ℚ := 693147180559945309417 / 1000000000000000000000

/-- `Number.EPSILON` = 2^(-52), the `DBL_EPSILON` of the source. -/
def DBL_EPSILON : ℚ := 1 / 2 ^ 52

/-- Modelled from the spec: `R_forceint` from the numeric utility layer
(not among the given sources) — the spec says query points and sample
sizes are "coerced to the nearest integer"; modelled as rounding to the
nearest integer (no input of the claims sits on a half-integer tie). -/
def R_forceint (q : ℚ) : ℚ := ((round q : ℤ) : ℚ)

/-- Modelled from the spec: the numeric helper `trunc` (round toward
zero), also not among the given sources. -/
def jsTrunc (q : ℚ) : ℚ := if 0 ≤ q then ((⌊q⌋ : ℤ) : ℚ) else ((⌈q⌉ : ℤ) : ℚ)

/-- Modelled from the spec: boundary helper `R_DT_0` — the representation
of an exact probability 0 under the tail/log flags. -/
def R_DT_0 (lower_tail log_p : Bool) : JsVal :=
  if lower_tail then (if log_p then JsVal.negInf else JsVal.num 0)
  else (if log_p then JsVal.num 0 else JsVal.num 1)

/-- Modelled from the spec: boundary helper `R_DT_1` — the representation
of an exact probability 1 under the tail/log flags. -/
def R_DT_1 (lower_tail log_p : Bool) : JsVal :=
  if lower_tail then (if log_p then JsVal.num 0 else JsVal.num 1)
  else (if log_p then JsVal.negInf else JsVal.num 0)

/-- External collaborators of the two source files, abstract: the
incomplete beta CDF, the normal CDF, the central-t CDF, log-gamma, the
elementary transcendental functions, the log-domain value transform used
by `R_DT_val` when `log_p` is set, the `R_DT_qIv` conversion, and the two
irrational constants `M_SQRT_2dPI` and `M_LN_SQRT_PI` imported by `pnt`. -/
structure Collab where
  pbeta : ℚ → ℚ → ℚ → Bool → Bool → ℚ
  pnorm : ℚ → ℚ → ℚ → Bool → Bool → ℚ
  pt : JsVal → ℚ → Bool → Bool → JsVal
  lgammafn : ℚ → ℚ
  expQ : ℚ → ℚ
  logQ : ℚ → ℚ
  expm1Q : ℚ → ℚ
  powQ : ℚ → ℚ → ℚ
  sqrtQ : ℚ → ℚ
  logV : JsVal → JsVal
  qIv : Bool → Bool → ℚ → ℚ
  sqrt2dPi : ℚ
  lnSqrtPi : ℚ

/-- A concrete collaborator assignment (all functions constant), used to
evaluate paths that do not consult the collaborators. -/
def collab0 : Collab :=
  ⟨fun _ _ _ _ _ => 0, fun _ _ _ _ _ => 0, fun _ _ _ _ => JsVal.num 0,
   fun _ => 0, fun _ => 0, fun _ => 0, fun _ => 0, fun _ _ => 0, fun _ => 0,
   fun _ => JsVal.num 0, fun _ _ _ => 0, 0, 0⟩

/-- Modelled from the spec: `R_DT_val` — transform a computed probability
according to the tail and log flags (upper tail complements against 1,
log scale goes through the external logarithm). -/
def R_DT_val (E : Collab) (lower_tail log_p : Bool) (v : JsVal) : JsVal :=
  let v1 := if lower_tail then v else jsSub (JsVal.num 1) v
  if log_p then E.logV v1 else v1

/-- `w_init_maybe` from signrank.ts: `u = n*(n+1)/2`, `c = u/2` (the
source performs no flooring), then `w = new Array(c + 1)`.
`new Array(len)` succeeds only when `len` is an integer with
`0 <= len < 2^32`, yielding an array of `len` holes; otherwise it throws
a RangeError, modelled as `none`.  The previous module state
`(w, allocated_n)` is an argument, and — exactly as in the source, which
never reads `w` or `allocated_n` here — it is ignored: the function
unconditionally allocates and then stores `allocated_n = n`. -/
def w_init_maybe (n : ℚ) (_prev : Table × Option ℚ) : Option (Table × Option ℚ) :=
  let u : ℚ := n * (n + 1) / 2
  let c : ℚ := u / 2
  let len : ℚ := c + 1
  if len.den = 1 ∧ 0 ≤ len.num ∧ len.num < 2 ^ 32 then
    some (List.replicate len.num.toNat JsVal.undef, some n)
  else none

/-- One `w[i] += w[i - j]` update of the build recurrence. -/
def csUpdate (j : ℕ) (i : ℚ) (w : Table) : Table :=
  jsSet w i (jsAdd (jsIndex w i) (jsIndex w (i - (j : ℚ))))

/-- Descending inner loop of the build: starting at `i = e` and stepping
`i` down by one, perform `cnt` updates (`cnt` is the number of integers
in `[j, e]`, matching the loop guard `i >= j`). -/
def csInner (j : ℕ) (e : ℚ) : ℕ → Table → Table
  | 0, w => w
  | cnt + 1, w => csInner j (e - 1) cnt (csUpdate j e w)

/-- Inner build loop of `csignrank`: for fixed `j`,
`w[i] += w[i - j]` for `i` from `e = min(j*(j+1)/2, c)` down to `j`
(`imin2` modelled from the spec as the minimum). -/
def csBuildInner (c : ℚ) (j : ℕ) (w : Table) : Table :=
  let e : ℚ := min ((j * (j + 1) / 2 : ℕ) : ℚ) c
  csInner j e (⌊e⌋ - j + 1).toNat w

/-- Ascending outer loop of the build over `j`, running `cnt` values of
`j` starting at the given one. -/
def csOuter (c : ℚ) : ℕ → ℕ → Table → Table
  | 0, _, w => w
  | cnt + 1, j, w => csOuter c cnt (j + 1) (csBuildInner c j w)

/-- Outer build loop of `csignrank`: `for (j = 2; j < n + 1; ++j)` —
for integer `j` the loop runs `j = 2, ..., ⌈n⌉`. -/
def csBuild (n c : ℚ) (w : Table) : Table :=
  csOuter c (⌈n⌉ - 1).toNat 2 w

/-- `csignrank` from signrank.ts, threading the module-level table
explicitly.  Out-of-range `k` returns 0; `k` is folded at the symmetry
point `c = u/2`; `n == 1` returns 1 without touching the table; if
`w[0] === 1` the table is treated as built and looked up; otherwise the
recurrence builds the table in place (slots 0 and 1 set to 1 first) and
the freshly built table is looked up. -/
def csignrank (k n : ℚ) (w : Table) : JsVal × Table :=
  let u : ℚ := n * (n + 1) / 2
  let c : ℚ := u / 2
  if k < 0 ∨ u < k then (JsVal.num 0, w)
  else
    let k1 := if c < k then u - k else k
    if n = 1 then (JsVal.num 1, w)
    else if jsIndex w 0 = JsVal.num 1 then (jsIndex w k1, w)
    else
      let w1 := jsSet (jsSet w 0 (JsVal.num 1)) 1 (JsVal.num 1)
      let w2 := csBuild n c w1
      (jsIndex w2 k1, w2)

/-- Modelled from the spec: the factor `f = exp(-n * M_LN2)` of
`psignrank` / `qsignrank` — the spec states the mass factor is `2^(-n)`
(`exp` is an external collaborator); `n` is an integer whenever this is
evaluated, so the factor is modelled by its exact value. -/
def twoPowNeg (n : ℚ) : ℚ := (2 : ℚ) ^ (-⌊n⌋)

/-- The summation loop of `psignrank`, accumulating
`p += csignrank(i, nn) * f` for `cnt` values of `i` starting at the given
one, threading the table (the first `csignrank` call performs the build). -/
def psumLoop (nn f : ℚ) : ℕ → ℚ → JsVal → Table → JsVal × Table
  | 0, _, p, w => (p, w)
  | cnt + 1, i, p, w =>
    let r := csignrank i nn w
    psumLoop nn f cnt (i + 1) (jsAdd p (jsMul r.1 (JsVal.num f))) r.2

/-- `psignrank` from signrank.ts.  The two statements
`if (!R_FINITE(n)) ML_ERR_return_NAN;` and `if (n <= 0) ML_ERR_return_NAN;`
in the source are expression statements without `return` (the second does
not even call the function), so they have no effect and are not reflected
here.  Inputs are finite rationals (the NaN-propagation line is outside
the modelled paths).  `none` models a RangeError thrown by
`w_init_maybe`. -/
def psignrank (E : Collab) (x0 n0 : ℚ) (lower_tail log_p : Bool) : Option JsVal :=
  let n := R_forceint n0
  let x := R_forceint (x0 + 1 / 10 ^ 7)
  if x < 0 then some (R_DT_0 lower_tail log_p)
  else if n * (n + 1) / 2 ≤ x then some (R_DT_1 lower_tail log_p)
  else
    let nn := jsTrunc n
    match w_init_maybe nn ([], none) with
    | none => none
    | some (w, _) =>
      let f := twoPowNeg n
      if x ≤ n * (n + 1) / 4 then
        some (R_DT_val E lower_tail log_p (psumLoop nn f (⌊x⌋ + 1).toNat 0 (JsVal.num 0) w).1)
      else
        let x1 := n * (n + 1) / 2 - x
        some (R_DT_val E (!lower_tail) log_p (psumLoop nn f ⌊x1⌋.toNat 0 (JsVal.num 0) w).1)

/-- The lower-tail quantile scan of `qsignrank`
(`while (true) { p += csignrank(q, nn) * f; if (p >= x) break; q++; }`),
with explicit fuel: `none` means the loop has not hit its break within
`fuel` iterations. -/
def scanLow (nn f target : ℚ) : ℕ → ℚ → JsVal → Table → Option JsVal
  | 0, _, _, _ => none
  | fuel + 1, q, p, w =>
    let r := csignrank q nn w
    let p1 := jsAdd p (jsMul r.1 (JsVal.num f))
    if jsGeQ p1 target then some (JsVal.num q)
    else scanLow nn f target fuel (q + 1) p1 r.2

/-- The upper-tail quantile scan of `qsignrank` (break on `p > x`,
returning `trunc(n*(n+1)/2 - q)`), with explicit fuel. -/
def scanHigh (n nn f target : ℚ) : ℕ → ℚ → JsVal → Table → Option JsVal
  | 0, _, _, _ => none
  | fuel + 1, q, p, w =>
    let r := csignrank q nn w
    let p1 := jsAdd p (jsMul r.1 (JsVal.num f))
    if jsGtQ p1 target then some (JsVal.num (jsTrunc (n * (n + 1) / 2 - q)))
    else scanHigh n nn f target fuel (q + 1) p1 r.2

/-- `qsignrank` from signrank.ts.  `R_Q_P01_check` is modelled from the
spec ("validates x is a legal probability, may short-circuit with NaN"):
NaN for a positive log-probability or a linear probability outside
`[0,1]`.  The statement `if (n <= 0) ML_ERR_return_NAN;` is again a no-op
in the source.  The unbounded scan is modelled with fuel: the outer
`none` is a RangeError escaping from `w_init_maybe`; `some none` means
the scan has not terminated within `fuel` iterations; `some (some v)` is
a normal return of `v`. -/
def qsignrank (E : Collab) (fuel : ℕ) (x0 n0 : ℚ) (lower_tail log_p : Bool) :
    Option (Option JsVal) :=
  if (log_p = true ∧ 0 < x0) ∨ (log_p = false ∧ (x0 < 0 ∨ 1 < x0)) then
    some (some JsVal.nan)
  else
    let n := R_forceint n0
    if JsVal.num x0 = R_DT_0 lower_tail log_p then some (some (JsVal.num 0))
    else if JsVal.num x0 = R_DT_1 lower_tail log_p then
      some (some (JsVal.num (n * (n + 1) / 2)))
    else
      let x := if log_p = true ∨ lower_tail = false then E.qIv lower_tail log_p x0 else x0
      let nn := jsTrunc n
      match w_init_maybe nn ([], none) with
      | none => none
      | some (w, _) =>
        let f := twoPowNeg n
        if x ≤ 1 / 2 then
          some (scanLow nn f (x - 10 * DBL_EPSILON) fuel 0 (JsVal.num 0) w)
        else
          some (scanHigh n nn f (1 - x + 10 * DBL_EPSILON) fuel 0 (JsVal.num 0) w)

/-- The table produced by `w_init_maybe(4)`: `u = 10`, `c = 5`,
`new Array(6)` — six holes. -/
def fresh6 : Table :=
  [JsVal.undef, JsVal.undef, JsVal.undef, JsVal.undef, JsVal.undef, JsVal.undef]

/-- The table after the in-place build for `n = 4` runs on the all-holes
array: slots 0 and 1 are set to 1 before the convolution, and every
`w[i] += w[i-j]` whose operand is an unwritten hole (or already NaN)
yields NaN, so slots 2..5 end up NaN. -/
def built4 : Table :=
  [JsVal.num 1, JsVal.num 1, JsVal.nan, JsVal.nan, JsVal.nan, JsVal.nan]

/-- `pbinom` from pbinom.ts.  The non-integer-n warning block and the
`if (n < 0 || p < 0 || p > 1) ML_ERR_return_NAN;` statement have no
`return` in the source (the latter does not even call the function), so
neither affects the result; the model reflects the source by omitting
them.  Inputs are finite rationals (the NaN-propagation and finiteness
returns are not exercised by finite inputs). -/
def pbinom (E : Collab) (x0 n0 p : ℚ) (lower_tail log_p : Bool) : JsVal :=
  let n := R_forceint n0
  if x0 < 0 then R_DT_0 lower_tail log_p
  else
    let x : ℚ := ((⌊x0 + 1 / 10 ^ 7⌋ : ℤ) : ℚ)
    if n ≤ x then R_DT_1 lower_tail log_p
    else JsVal.num (E.pbeta p (x + 1) (n - x) (!lower_tail) log_p)

/-- The guard of the fast extreme-tail shortcut of `_pnt`, exactly as in
the source: `_t < 0 && ncp > 40 && (!log_p || !lower_tail)`. -/
def pntShortcut (t ncp : ℚ) (lower_tail log_p : Bool) : Bool :=
  decide (t < 0) && decide (40 < ncp) && (!log_p || !lower_tail)

/-- State of the twin-series loop of `_pnt`. -/
structure PntState where
  a : ℚ
  godd : ℚ
  geven : ℚ
  p : ℚ
  q : ℚ
  s : ℚ
  tnc : ℚ
  xodd : ℚ
  xeven : ℚ

/-- The twin-series loop of `_pnt` (`for (it = 1; it <= itrmax; it++)`),
translated statement by statement; returns the accumulated `tnc` at a
break, or after exhausting the iteration budget (the source then reports
non-convergence but still uses the accumulated value).  `rem` counts the
remaining iterations (1000 initially), `it` the current iteration. -/
def pntLoop (x lambda b : ℚ) : ℕ → ℕ → PntState → ℚ
  | 0, _, st => st.tnc
  | rem + 1, it, st =>
    let a := st.a + 1
    let xodd := st.xodd - st.godd
    let xeven := st.xeven - st.geven
    let godd := st.godd * (x * (a + b - 1) / a)
    let geven := st.geven * (x * (a + b - 1 / 2) / (a + 1 / 2))
    let p := st.p * (lambda / (2 * (it : ℚ)))
    let q := st.q * (lambda / (2 * (it : ℚ) + 1))
    let tnc := st.tnc + (p * xodd + q * xeven)
    let s := st.s - p
    if s < -(1 / 10 ^ 10) then tnc
    else if s ≤ 0 then tnc
    else
      let errbd := 2 * s * (xodd - godd)
      if |errbd| < 1 / 10 ^ 12 then tnc
      else pntLoop x lambda b rem (it + 1) (PntState.mk a godd geven p q s tnc xodd xeven)

/-- The common tail of `_pnt` (the `finis` label): add the normal-CDF
contribution `pnorm(-del, 0, 1, true, false)`, flip the tail by the sign
of the original `t` (`lower_tail !== negdel`), clamp with `fmin2(tnc, 1)`
and apply `R_DT_val`.  (The precision warning just before the return is a
diagnostic and does not affect the value.) -/
def pntFinis (E : Collab) (tnc del : ℚ) (lower_tail log_p : Bool) (negdel : Bool) : JsVal :=
  let tnc1 := tnc + E.pnorm (-del) 0 1 true false
  let lt := xor lower_tail negdel
  R_DT_val E lt log_p (JsVal.num (min tnc1 1))

/-- `_pnt` from signrank.ts (algorithm AS 243), the scalar noncentral-t
CDF; the exported `pnt` maps it elementwise and on a scalar input is this
function.  Order of dispatch as in the source: domain check `df <= 0`
(this `ML_ERR_return_NAN()` is properly returned), delegation to the
central-t CDF for `ncp == 0`, the non-finite-`t` boundary return (NaN and
`undefined` fall into it with `t < 0` false, so they yield `R_DT_1`),
the extreme-tail shortcut, the Abramowitz-Stegun asymptotic regime
(`DBL_MIN_EXP = -1021`), and the twin-series regime, whose whole block is
skipped when `x = t^2/(t^2+df)` is not `> 0`.  The underflow guard
`p == 0` returns the 0-boundary from inside the series block. -/
def pnt (E : Collab) (t : JsVal) (df ncp : ℚ) (lower_tail log_p : Bool) : JsVal :=
  if df ≤ 0 then JsVal.nan
  else if ncp = 0 then E.pt t df lower_tail log_p
  else
    match t with
    | JsVal.nan => R_DT_1 lower_tail log_p
    | JsVal.undef => R_DT_1 lower_tail log_p
    | JsVal.posInf => R_DT_1 lower_tail log_p
    | JsVal.negInf => R_DT_0 lower_tail log_p
    | JsVal.num tq =>
      let negdel : Bool := decide (tq < 0)
      let tt : ℚ := |tq|
      let del : ℚ := if 0 ≤ tq then ncp else -ncp
      if pntShortcut tq ncp lower_tail log_p = true then R_DT_0 lower_tail log_p
      else if 400000 < df ∨ 2 * M_LN2 * 1021 < del * del then
        JsVal.num (E.pnorm (tt * (1 - 1 / (4 * df))) del
          (E.sqrtQ (1 + tt * tt * 2 * (1 / (4 * df)))) (xor lower_tail negdel) log_p)
      else
        let x0 : ℚ := tq * tq
        let rxb : ℚ := df / (x0 + df)
        let x : ℚ := x0 / (x0 + df)
        if 0 < x then
          let lambda := del * del
          let p := 1 / 2 * E.expQ (-(1 / 2) * lambda)
          if p = 0 then R_DT_0 lower_tail log_p
          else
            let q := E.sqrt2dPi * p * del
            let s0 := 1 / 2 - p
            let s := if s0 < 1 / 10 ^ 7 then -(1 / 2) * E.expm1Q (-(1 / 2) * lambda) else s0
            let a : ℚ := 1 / 2
            let b : ℚ := 1 / 2 * df
            let rxb1 := E.powQ rxb b
            let albeta := E.lnSqrtPi + E.lgammafn b - E.lgammafn (1 / 2 + b)
            let xodd := E.pbeta x a b true false
            let godd := 2 * rxb1 * E.expQ (a * E.logQ x - albeta)
            let tnc0 := b * x
            let xeven := if tnc0 < DBL_EPSILON then tnc0 else 1 - rxb1
            let geven := tnc0 * rxb1
            let tnc1 := p * xodd + q * xeven
            pntFinis E (pntLoop x lambda b 1000 1 (PntState.mk a godd geven p q s tnc1 xodd xeven))
              del lower_tail log_p negdel
        else pntFinis E 0 del lower_tail log_p negdel

/-- C1: after `w_init_maybe(4)` allocates the six-slot table and the first
lookup triggers the build, `csignrank(0,4)` and `csignrank(10,4)` return 1
as the claim states, but `csignrank(5,4)` returns NaN, not 2: the freshly
allocated array consists of holes (JavaScript `new Array` does not
zero-fill, unlike the C original's `calloc`), so the in-place convolution
fills slots 2..5 with NaN. -/
theorem c1_csignrank_n4 :
    w_init_maybe 4 ([], none) = some (fresh6, some 4) ∧
    csignrank 0 4 fresh6 = (JsVal.num 1, built4) ∧
    csignrank 10 4 built4 = (JsVal.num 1, built4) ∧
    csignrank 5 4 built4 = (JsVal.nan, built4) ∧
    JsVal.nan ≠ JsVal.num 2 := by
  refine ⟨?_, ?_, ?_, ?_, by decide⟩
  · norm_num [w_init_maybe, fresh6, List.replicate]
  · norm_num [csignrank, csBuild, csOuter, csBuildInner, csInner, csUpdate,
      jsIndex, jsSet, jsAdd, jsMul, fresh6, built4, min_def, List.set, List.getD]
    try decide
  · norm_num [csignrank, jsIndex, built4, List.getD]
    try decide
  · norm_num [csignrank, jsIndex, built4, List.getD]
    try decide

/-- C2: `w_init_maybe(1)` does not complete: `u = 1`, `c = u/2 = 1/2` is
not floored in the source, and `new Array(1/2 + 1)` throws a RangeError
(invalid array length); for `n = 4` (even `u`) the allocation succeeds
with the claimed length `floor(u/2) + 1 = 6`. -/
theorem c2_w_init_maybe_raises :
    w_init_maybe 1 ([], none) = none ∧
    w_init_maybe 4 ([], none) = some (fresh6, some 4) ∧
    fresh6.length = 6 := by
  refine ⟨?_, ?_, by decide⟩
  · norm_num [w_init_maybe]
  · norm_num [w_init_maybe, fresh6, List.replicate]

/-- C3: invoking `w_init_maybe(4)` when the cached `allocated_n` is 4 and
the table is built does not leave the table unchanged: the source never
reads `allocated_n` (it is a dead store) and unconditionally allocates a
fresh all-holes array, discarding the built table. -/
theorem c3_w_init_maybe_reallocates :
    w_init_maybe 4 (built4, some 4) = some (fresh6, some 4) ∧
    built4 ≠ fresh6 := by
  refine ⟨?_, by decide⟩
  norm_num [w_init_maybe, fresh6, List.replicate]

/-- NaN is absorbing for the modelled JavaScript addition. -/
theorem jsAdd_nan_left (v : JsVal) : jsAdd JsVal.nan v = JsVal.nan := by
  cases v <;> rfl

/-- A lookup call leaves the table unchanged when slot 0 already holds 1
(every branch of `csignrank` except the build returns the table as is). -/
theorem csignrank_keeps_table (k n : ℚ) (w : Table)
    (h : jsIndex w 0 = JsVal.num 1) : (csignrank k n w).2 = w := by
  simp only [csignrank, h]
  split_ifs <;> rfl

/-- One unfolding step of the lower quantile scan when the break test is
false. -/
theorem scanLow_step (nn f target : ℚ) (fl : ℕ) (q q1 : ℚ) (pv : JsVal)
    (w : Table) (v : JsVal) (w1 : Table) (p1 : JsVal)
    (h1 : csignrank q nn w = (v, w1))
    (h2 : jsAdd pv (jsMul v (JsVal.num f)) = p1)
    (h3 : jsGeQ p1 target = false)
    (hq : q + 1 = q1) :
    scanLow nn f target (fl + 1) q pv w = scanLow nn f target fl q1 p1 w1 := by
  simp only [scanLow, h1, h2, h3, hq]
  rfl

/-- The build triggered by the first lookup on the freshly allocated
(all-holes) n = 4 table: the result is 1 = w[0], and the table is left in
the NaN-polluted state `built4`. -/
theorem csignrank_0_4_fresh : csignrank 0 4 fresh6 = (JsVal.num 1, built4) := by
  norm_num [csignrank, csBuild, csOuter, csBuildInner, csInner, csUpdate,
    jsIndex, jsSet, jsAdd, jsMul, fresh6, built4, min_def, List.set, List.getD]
  try decide

/-- Lookup of slot 1 on the built n = 4 table. -/
theorem csignrank_1_4_built : csignrank 1 4 built4 = (JsVal.num 1, built4) := by
  norm_num [csignrank, jsIndex, built4, List.getD]
  try decide

/-- Lookup of slot 2 on the built n = 4 table: NaN. -/
theorem csignrank_2_4_built : csignrank 2 4 built4 = (JsVal.nan, built4) := by
  norm_num [csignrank, jsIndex, built4, List.getD]
  try decide

/-- Once the accumulated probability is NaN, the lower scan of
`qsignrank` on the built n = 4 table never breaks: the table stays fixed,
NaN absorbs every further addition, and `p >= x` is false for NaN. -/
theorem scanLow_nan_stuck (f target : ℚ) :
    ∀ (m : ℕ) (q : ℚ), scanLow 4 f target m q JsVal.nan built4 = none := by
  intro m
  induction m with
  | zero => intro q; rfl
  | succ k ih =>
    intro q
    have hs : (csignrank q 4 built4).2 = built4 :=
      csignrank_keeps_table q 4 built4 (by norm_num [jsIndex, built4, List.getD])
    simp only [scanLow, jsAdd_nan_left, hs, jsGeQ]
    exact ih (q + 1)

/-- C4: the quantile scan of `qsignrank` does not terminate at
x = 2/5, n = 4 (lower tail, linear scale), an input the initial
validation accepts: the first two steps accumulate 1/16 and 1/8, the
third adds the NaN in table slot 2, and from then on `p` stays NaN, the
break test `p >= x` is false forever — for every fuel bound the scan is
still running (`some none`). -/
theorem c4_qsignrank_diverges (fuel : ℕ) :
    qsignrank collab0 fuel (2 / 5) 4 true false = some none := by
  have hpre : ∀ m : ℕ, qsignrank collab0 m (2 / 5) 4 true false
      = some (scanLow 4 (1 / 16) (2 / 5 - 10 * DBL_EPSILON) m 0 (JsVal.num 0) fresh6) := by
    intro m
    norm_num [qsignrank, R_forceint, round_eq, jsTrunc, w_init_maybe, R_DT_0, R_DT_1,
      twoPowNeg, DBL_EPSILON, fresh6, List.replicate]
  have step1 : ∀ m : ℕ, scanLow 4 (1 / 16) (2 / 5 - 10 * DBL_EPSILON) (m + 1) 0
      (JsVal.num 0) fresh6
      = scanLow 4 (1 / 16) (2 / 5 - 10 * DBL_EPSILON) m 1 (JsVal.num (1 / 16)) built4 :=
    fun m => scanLow_step 4 (1 / 16) _ m 0 1 (JsVal.num 0) fresh6 (JsVal.num 1) built4
      (JsVal.num (1 / 16)) csignrank_0_4_fresh (by norm_num [jsAdd, jsMul])
      (by norm_num [jsGeQ, DBL_EPSILON]) (by norm_num)
  have step2 : ∀ m : ℕ, scanLow 4 (1 / 16) (2 / 5 - 10 * DBL_EPSILON) (m + 1) 1
      (JsVal.num (1 / 16)) built4
      = scanLow 4 (1 / 16) (2 / 5 - 10 * DBL_EPSILON) m 2 (JsVal.num (1 / 8)) built4 :=
    fun m => scanLow_step 4 (1 / 16) _ m 1 2 (JsVal.num (1 / 16)) built4 (JsVal.num 1)
      built4 (JsVal.num (1 / 8)) csignrank_1_4_built (by norm_num [jsAdd, jsMul])
      (by norm_num [jsGeQ, DBL_EPSILON]) (by norm_num)
  have step3 : ∀ m : ℕ, scanLow 4 (1 / 16) (2 / 5 - 10 * DBL_EPSILON) (m + 1) 2
      (JsVal.num (1 / 8)) built4
      = scanLow 4 (1 / 16) (2 / 5 - 10 * DBL_EPSILON) m 3 JsVal.nan built4 :=
    fun m => scanLow_step 4 (1 / 16) _ m 2 3 (JsVal.num (1 / 8)) built4 JsVal.nan
      built4 JsVal.nan csignrank_2_4_built (by norm_num [jsAdd, jsMul])
      (by norm_num [jsGeQ]) (by norm_num)
  rw [hpre]
  rcases fuel with _ | (_ | (_ | m))
  · rfl
  · rw [step1]; rfl
  · rw [step1, step2]; rfl
  · rw [step1, step2, step3, scanLow_nan_stuck]

/-- One unfolding step of the `psignrank` summation loop. -/
theorem psumLoop_step (nn f : ℚ) (cnt : ℕ) (i i1 : ℚ) (pv : JsVal)
    (w : Table) (v : JsVal) (w1 : Table) (p1 : JsVal)
    (h1 : csignrank i nn w = (v, w1))
    (h2 : jsAdd pv (jsMul v (JsVal.num f)) = p1)
    (hi : i + 1 = i1) :
    psumLoop nn f (cnt + 1) i pv w = psumLoop nn f cnt i1 p1 w1 := by
  simp only [psumLoop, h1, h2, hi]

/-- The partial sum csignrank(0)+csignrank(1) scaled by 1/16 on the n = 4
table: 1/8, table stable. -/
theorem psumLoop_2_of_4 :
    psumLoop 4 (1 / 16) 2 0 (JsVal.num 0) fresh6 = (JsVal.num (1 / 8), built4) := by
  rw [psumLoop_step 4 (1 / 16) 1 0 1 (JsVal.num 0) fresh6 (JsVal.num 1) built4
      (JsVal.num (1 / 16)) csignrank_0_4_fresh (by norm_num [jsAdd, jsMul]) (by norm_num),
    psumLoop_step 4 (1 / 16) 0 1 2 (JsVal.num (1 / 16)) built4 (JsVal.num 1) built4
      (JsVal.num (1 / 8)) csignrank_1_4_built (by norm_num [jsAdd, jsMul]) (by norm_num)]
  rfl

/-- Adding the NaN of slot 2 turns the partial sum into NaN. -/
theorem psumLoop_3_of_4 :
    psumLoop 4 (1 / 16) 3 0 (JsVal.num 0) fresh6 = (JsVal.nan, built4) := by
  rw [psumLoop_step 4 (1 / 16) 2 0 1 (JsVal.num 0) fresh6 (JsVal.num 1) built4
      (JsVal.num (1 / 16)) csignrank_0_4_fresh (by norm_num [jsAdd, jsMul]) (by norm_num),
    psumLoop_step 4 (1 / 16) 1 1 2 (JsVal.num (1 / 16)) built4 (JsVal.num 1) built4
      (JsVal.num (1 / 8)) csignrank_1_4_built (by norm_num [jsAdd, jsMul]) (by norm_num),
    psumLoop_step 4 (1 / 16) 0 2 3 (JsVal.num (1 / 8)) built4 JsVal.nan built4
      JsVal.nan csignrank_2_4_built (by norm_num [jsAdd, jsMul]) (by norm_num)]
  rfl

/-- C5: the boundary identities of the claim hold —
psignrank(-1,4,true,false) = 0 and psignrank(10,4,true,false) = 1 — but
monotonicity in x fails on the code: psignrank(1,4,true,false) = 1/8
while psignrank(2,4,true,false) is NaN (the summation hits the NaN table
slots), and NaN is not >= 1/8 (the final conjunct is the JavaScript
comparison itself). -/
theorem c5_psignrank_not_monotone :
    psignrank collab0 (-1) 4 true false = some (JsVal.num 0) ∧
    psignrank collab0 10 4 true false = some (JsVal.num 1) ∧
    psignrank collab0 1 4 true false = some (JsVal.num (1 / 8)) ∧
    psignrank collab0 2 4 true false = some JsVal.nan ∧
    jsGeQ JsVal.nan (1 / 8) = false := by
  refine ⟨?_, ?_, ?_, ?_, rfl⟩
  · norm_num [psignrank, R_forceint, round_eq, R_DT_0]
  · norm_num [psignrank, R_forceint, round_eq, R_DT_1]
  · norm_num [psignrank, R_forceint, round_eq, jsTrunc, w_init_maybe, twoPowNeg,
      List.replicate, fresh6, R_DT_val]
    show (psumLoop 4 (1 / 16) 2 0 (JsVal.num 0) fresh6).1 = JsVal.num (1 / 8)
    rw [psumLoop_2_of_4]
  · norm_num [psignrank, R_forceint, round_eq, jsTrunc, w_init_maybe, twoPowNeg,
      List.replicate, fresh6, R_DT_val]
    show (psumLoop 4 (1 / 16) 3 0 (JsVal.num 0) fresh6).1 = JsVal.nan
    rw [psumLoop_3_of_4]

/-- C8: the guards `if (!R_FINITE(n)) ML_ERR_return_NAN;` and
`if (n <= 0) ML_ERR_return_NAN;` in `psignrank` lack `return` (and the
call parentheses), so they are no-ops: psignrank(0, 0, true, false) falls
through them to the upper boundary check (x = 0 >= n(n+1)/2 = 0) and
returns the 1-boundary — the value 1, not NaN. -/
theorem c8_psignrank_n0 :
    psignrank collab0 0 0 true false = some (JsVal.num 1) := by
  norm_num [psignrank, R_forceint, round_eq, R_DT_1]

/-- C9: the domain guards of `pbinom` (non-integer n, and
`n < 0 || p < 0 || p > 1`) lack `return`, so for p = 2 > 1 the call falls
through and delegates to `pbeta(p, x+1, n-x, !lower_tail, log_p)` instead
of returning NaN: pbinom(1, 2, 2, true, false) returns the value of
`pbeta(2, 2, 1, false, false)` — a `num` node, never NaN. -/
theorem c9_pbinom_p2 (E : Collab) :
    pbinom E 1 2 2 true false = JsVal.num (E.pbeta 2 2 1 false false) ∧
    JsVal.num (E.pbeta 2 2 1 false false) ≠ JsVal.nan := by
  constructor
  · norm_num [pbinom, R_forceint, round_eq]
  · intro h
    cases h

/-- C9 witness: the delegation instantiated at the concrete collaborator
assignment. -/
theorem c9_pbinom_p2_witness :
    pbinom collab0 1 2 2 true false = JsVal.num (collab0.pbeta 2 2 1 false false) ∧
    JsVal.num (collab0.pbeta 2 2 1 false false) ≠ JsVal.nan :=
  c9_pbinom_p2 collab0

/-- C6 counterexample: `_pnt` performs no NaN test on t.  With df = 1 > 0
and ncp = 1 ≠ 0, a NaN t reaches the non-finite check, `NaN < 0` is
false, and the function returns the 1-boundary — here the value 1, not
NaN as the claim requires. -/
theorem c6_cx_pnt_nan_gives_one :
    pnt collab0 JsVal.nan 1 1 true false = JsVal.num 1 ∧
    JsVal.num 1 ≠ JsVal.nan := by
  constructor
  · norm_num [pnt, R_DT_1]
  · intro h; cases h

/-- C6 amended: for df > 0 and ncp ≠ 0 (so neither earlier dispatch
fires), a NaN t is routed through the non-finite-t check, whose `t < 0`
test is false for NaN, and `_pnt` returns `R_DT_1(lower_tail, log_p)` —
NaN does not propagate. -/
theorem c6_pnt_nan_boundary (E : Collab) (df ncp : ℚ) (lt lp : Bool)
    (hdf : 0 < df) (hncp : ncp ≠ 0) :
    pnt E JsVal.nan df ncp lt lp = R_DT_1 lt lp := by
  simp only [pnt]
  rw [if_neg (not_le.mpr hdf), if_neg hncp]

/-- C6 witness. -/
theorem c6_pnt_nan_boundary_witness :
    pnt collab0 JsVal.nan 1 1 true false = R_DT_1 true false :=
  c6_pnt_nan_boundary collab0 1 1 true false (by norm_num) (by norm_num)

/-- C7 counterexample: at t = -1, ncp = 41, lower_tail = true,
log_p = false the request is lower-tail-in-linear-space, so the claim
says the shortcut must not fire; but the source guard
`!log_p || !lower_tail` is true there, the shortcut fires and `_pnt`
returns the 0-boundary (the value 0) directly. -/
theorem c7_cx_shortcut_fires_linear :
    pntShortcut (-1) 41 true false = true ∧
    pnt collab0 (JsVal.num (-1)) 1 41 true false = JsVal.num 0 ∧
    R_DT_0 true false = JsVal.num 0 := by
  refine ⟨by norm_num [pntShortcut], ?_, by norm_num [R_DT_0]⟩
  norm_num [pnt, pntShortcut, R_DT_0]

/-- C7 amended: for finite t < 0, df > 0 and ncp > 40, the fast
extreme-tail shortcut fires exactly when the request is not
lower-tail-in-LOG-space (the source guard `!log_p || !lower_tail`, i.e.
not (lower_tail and log_p)), and whenever it fires `_pnt` returns the
0-probability boundary `R_DT_0` directly, before the asymptotic and
series regimes. -/
theorem c7_pnt_shortcut (E : Collab) (t df ncp : ℚ) (lt lp : Bool)
    (ht : t < 0) (hdf : 0 < df) (hncp : 40 < ncp) :
    (pntShortcut t ncp lt lp = true ↔ ¬(lt = true ∧ lp = true)) ∧
    (pntShortcut t ncp lt lp = true →
      pnt E (JsVal.num t) df ncp lt lp = R_DT_0 lt lp) := by
  have hncp0 : ncp ≠ 0 := by
    intro h
    rw [h] at hncp
    norm_num at hncp
  constructor
  · simp only [pntShortcut, Bool.and_eq_true, Bool.or_eq_true, Bool.not_eq_eq_eq_not,
      decide_eq_true_eq]
    cases lt <;> cases lp <;> simp [ht, hncp]
  · intro hs
    simp only [pnt]
    rw [if_neg (not_le.mpr hdf), if_neg hncp0]
    rw [if_pos hs]

/-- C7 witness: shortcut at t = -1, df = 1, ncp = 41, upper tail linear. -/
theorem c7_pnt_shortcut_witness :
    (pntShortcut (-1) 41 false false = true ↔ ¬(false = true ∧ false = true)) ∧
    (pntShortcut (-1) 41 false false = true →
      pnt collab0 (JsVal.num (-1)) 1 41 false false = R_DT_0 false false) :=
  c7_pnt_shortcut collab0 (-1) 1 41 false false (by norm_num) (by norm_num) (by norm_num)

/-- C10: for t = 0, 0 < df <= 4e5 and nonzero ncp with
ncp^2 <= 2*M_LN2*1021 (M_LN2 the source literal for ln 2), `_pnt` skips
the shortcut (t is not negative) and the asymptotic regime, the series
block is skipped because x = t^2/(t^2+df) = 0, and the returned
lower-tail linear value is min(pnorm(-ncp,0,1,true,false), 1), which
under the collaborator contract `pnorm <= 1` is exactly
pnorm(-ncp,0,1,true,false). -/
theorem c10_pnt_t0 (E : Collab)
    (hp : ∀ x m s lt lp, E.pnorm x m s lt lp ≤ 1)
    (df ncp : ℚ) (h1 : 0 < df) (h2 : df ≤ 400000) (h3 : ncp ≠ 0)
    (h4 : ncp * ncp ≤ 2 * M_LN2 * 1021) :
    pnt E (JsVal.num 0) df ncp true false = JsVal.num (E.pnorm (-ncp) 0 1 true false) := by
  simp only [pnt]
  rw [if_neg (not_le.mpr h1), if_neg h3]
  have hsc : ¬(pntShortcut 0 ncp true false = true) := by
    norm_num [pntShortcut]
  have hdel : (if (0:ℚ) ≤ 0 then ncp else -ncp) = ncp := by norm_num
  rw [hdel, if_neg hsc, if_neg (by push_neg; exact ⟨h2, h4⟩)]
  norm_num [pntFinis, R_DT_val, min_eq_left (hp (-ncp) 0 1 true false)]

/-- C10 witness: df = 1, ncp = 1, with the constant-zero pnorm, which
satisfies the contract pnorm <= 1. -/
theorem c10_pnt_t0_witness :
    pnt collab0 (JsVal.num 0) 1 1 true false
      = JsVal.num (collab0.pnorm (-1) 0 1 true false) :=
  c10_pnt_t0 collab0 (by intro x m s lt lp; norm_num [collab0]) 1 1
    (by norm_num) (by norm_num) (by norm_num) (by norm_num [M_LN2])

/-- C4 witness: even with a fuel budget of 1000 iterations the scan at
x = 2/5, n = 4 has not broken out of its loop. -/
theorem c4_qsignrank_diverges_witness :
    qsignrank collab0 1000 (2 / 5) 4 true false = some none :=
  c4_qsignrank_diverges 1000
